import Mathlib

/-!
Verification of the drift-detection core of `utilities/track_rule_updates.py`.

The program loads a JSON rule set, filters the rules whose metadata marks
them as custom (`extract_custom_rules`), and for each custom rule with a
declared original compares the pattern-bearing fields of the local rule with
the fetched registry original (`compare_with_original`, `extract_patterns`),
printing a diff report on mismatch.

The embedding models JSON documents as an inductive `Json` type, Python
dictionary/list primitives (`[]` indexing, `.get`, truthiness, `==`) as
Lean functions returning `Except` where Python would raise, and the external
collaborators (the registry fetch `get_rule`, `datetime.strptime`,
`yaml.dump`, and the `diff -U 0 -b` subprocess) as components of an
environment record.  The comparator is modelled as a trace-producing
function: its observable side effects (fetches, file writes, the diff
subprocess call, printed reports) become an explicit event list.
-/

/-- A JSON value as manipulated by the script (numbers restricted to
integers; the rule documents in play carry no floats). -/
inductive Json where
  | null : Json
  | bool : Bool → Json
  | num : Int → Json
  | str : String → Json
  | arr : List Json → Json
  | obj : List (String × Json) → Json

/-- First-match association lookup, the model of Python dict key lookup
(dicts loaded from JSON have unique keys, so first match is the match). -/
def pyFind (k : String) : List (String × Json) → Option Json
  | [] => none
  | kv :: rest => if kv.1 == k then some kv.2 else pyFind k rest

/-- `d[k]`: KeyError when the key is missing, TypeError when the value is
not a dict. -/
def Json.getItem : Json → String → Except String Json
  | Json.obj fields, k =>
      match pyFind k fields with
      | some v => Except.ok v
      | none => Except.error ("KeyError: " ++ k)
  | _, _ => Except.error "TypeError: value is not subscriptable by string"

/-- `d.get(k)`: defaults to `None` when the key is missing, AttributeError
when the receiver is not a dict. -/
def Json.pyGet : Json → String → Except String Json
  | Json.obj fields, k => Except.ok ((pyFind k fields).getD Json.null)
  | _, _ => Except.error "AttributeError: value has no attribute get"

/-- Python truthiness of a JSON value. -/
def Json.truthy : Json → Bool
  | Json.null => false
  | Json.bool b => b
  | Json.num n => n != 0
  | Json.str s => s != ""
  | Json.arr xs => !xs.isEmpty
  | Json.obj fs => !fs.isEmpty

mutual

/-- Python `==` on JSON values: structural on scalars and lists, key-wise
(insertion-order-insensitive) on dicts, with the numeric `True == 1`,
`False == 0` identifications; values of unrelated types compare unequal
without error. -/
def pyEq : Json → Json → Bool
  | Json.null, Json.null => true
  | Json.bool a, Json.bool b => a == b
  | Json.bool a, Json.num n => if a then n == 1 else n == 0
  | Json.num n, Json.bool b => if b then n == 1 else n == 0
  | Json.num a, Json.num b => a == b
  | Json.str a, Json.str b => a == b
  | Json.arr xs, Json.arr ys => pyEqArr xs ys
  | Json.obj fs, Json.obj gs =>
      pyEqFields fs gs && gs.all (fun kv => (pyFind kv.1 fs).isSome)
  | _, _ => false

/-- Python `==` on lists: pointwise, same length. -/
def pyEqArr : List Json → List Json → Bool
  | [], [] => true
  | x :: xs, y :: ys => pyEq x y && pyEqArr xs ys
  | _, _ => false

/-- Every binding of the first dict is matched by an equal binding of the
second. -/
def pyEqFields : List (String × Json) → List (String × Json) → Bool
  | [], _ => true
  | (k, v) :: rest, gs =>
      (match pyFind k gs with
       | some w => pyEq v w
       | none => false) && pyEqFields rest gs

end

/-- The predicate identifying pattern-bearing fields: `key.startswith('pattern')`,
i.e. the character sequence of `"pattern"` is an initial segment of the
character sequence of the key.  This single definition is used for both rule
shapes in `extract_patterns`. -/
def is_pattern_key (k : String) : Bool := "pattern".toList.isPrefixOf k.toList

/-- `extract_patterns(rule)`.  Registry rules carry a truthy `definition`
wrapper and their pattern fields live in `definition['rules'][0]`; custom
rules carry them at top level.  `rule['definition']['rules']` raises a
KeyError when a truthy wrapper lacks the key, and `[0]` raises an IndexError
on an empty list; indexing a non-list by `0`, or calling `.keys()` on a
non-dict, raises as well and is modelled by a single TypeError/AttributeError
result. -/
def extract_patterns (rule : Json) : Except String (List Json) :=
  match rule.pyGet "definition" with
  | Except.error e => Except.error e
  | Except.ok defv =>
    if defv.truthy then
      match defv.getItem "rules" with
      | Except.error e => Except.error e
      | Except.ok rs =>
        match rs with
        | Json.arr [] => Except.error "IndexError: list index out of range"
        | Json.arr (d :: _) =>
          match d with
          | Json.obj fields =>
              Except.ok ((fields.filter (fun kv => is_pattern_key kv.1)).map
                (fun kv => Json.obj [kv]))
          | _ => Except.error "AttributeError: value has no attribute keys"
        | _ => Except.error "TypeError: value is not indexable by 0"
    else
      match rule with
      | Json.obj fields =>
          Except.ok ((fields.filter (fun kv => is_pattern_key kv.1)).map
            (fun kv => Json.obj [kv]))
      | _ => Except.error "AttributeError: value has no attribute keys"

/-- `is_custom(rule)`: the filter condition of `extract_custom_rules`,
`"semgrep.dev" in rule['metadata'].keys() and
rule['metadata']["semgrep.dev"]['rule']['origin'] == "custom"`.
The membership test short-circuits, so a metadata dict without the
`semgrep.dev` key yields `false` rather than a KeyError. -/
def is_custom (rule : Json) : Except String Bool :=
  match rule.getItem "metadata" with
  | Except.error e => Except.error e
  | Except.ok md =>
    match md with
    | Json.obj fields =>
      if (pyFind "semgrep.dev" fields).isSome then
        match md.getItem "semgrep.dev" with
        | Except.error e => Except.error e
        | Except.ok sd =>
          match sd.getItem "rule" with
          | Except.error e => Except.error e
          | Except.ok r =>
            match r.getItem "origin" with
            | Except.error e => Except.error e
            | Except.ok o => Except.ok (pyEq o (Json.str "custom"))
      else Except.ok false
    | _ => Except.error "AttributeError: value has no attribute keys"

/-- The list comprehension of `extract_custom_rules`: keep the rules whose
`is_custom` condition evaluates to true; an exception anywhere aborts the
whole comprehension. -/
def filterCustom : List Json → Except String (List Json)
  | [] => Except.ok []
  | r :: rest =>
    match is_custom r with
    | Except.error e => Except.error e
    | Except.ok b =>
      match filterCustom rest with
      | Except.error e => Except.error e
      | Except.ok l => Except.ok (if b then r :: l else l)

/-- `extract_custom_rules` on an already-parsed JSON document (the file
read and `json.load` are external I/O): iterate `doc['rules']` and keep the
custom rules. -/
def extract_custom_rules (doc : Json) : Except String (List Json) :=
  match doc.getItem "rules" with
  | Except.error e => Except.error e
  | Except.ok rs =>
    match rs with
    | Json.arr rules => filterCustom rules
    | _ => Except.error "TypeError: value is not iterable"

/-- The external collaborators of `compare_with_original`:
`fetch` is `get_rule` (registry HTTP fetch keyed by the declared
original-rule identifier, raising on HTTP failure),
`parseTs` is `datetime.strptime(_, "%a, %d %b %Y %H:%M:%S %Z")` landing on
an abstract integer timeline (raising ValueError on malformed input),
`yamlDump` is `yaml.dump` on a pattern projection, and
`diff` is the stdout of `diff -U 0 -b` applied to two files holding the
given contents (current-rule file first, as in the subprocess argument
order). -/
structure Env where
  fetch : Json → Except String Json
  parseTs : String → Except String Int
  yamlDump : List Json → String
  diff : String → String → String

/-- An observable side effect of the comparator: a registry fetch, a scratch
file write, the diff subprocess invocation, or a printed report. -/
inductive Event where
  | fetchOf : Json → Event
  | fileWrite : String → String → Event
  | diffCall : List String → Event
  | printed : String → Event

/-- Lines 78-91 of the comparator: extract both pattern projections, and on
inequality write the two scratch files (original projection into the file
named by the original-rule id, current projection into the file named by
`rule['id']`), run `diff -U 0 -b <rule id> <original id>` and print the
`Rule ID:` report.  The two `yaml.dump` calls into local variables at lines
81-82 are pure and unused, so they leave no trace.  `open`/`subprocess.run`
require string names, so non-string identifiers raise. -/
def comparePatterns (env : Env) (rule originalRule origRef : Json) :
    List Event × Except String Unit :=
  match extract_patterns originalRule with
  | Except.error e => ([], Except.error e)
  | Except.ok original_pattern =>
    match extract_patterns rule with
    | Except.error e => ([], Except.error e)
    | Except.ok current_pattern =>
      if pyEqArr original_pattern current_pattern then ([], Except.ok ())
      else
        match rule.getItem "id" with
        | Except.error e => ([], Except.error e)
        | Except.ok ruleId =>
          match ruleId, origRef with
          | Json.str rid, Json.str oid =>
            let origYaml := env.yamlDump original_pattern
            let currYaml := env.yamlDump current_pattern
            ([Event.fileWrite oid origYaml,
              Event.fileWrite rid currYaml,
              Event.diffCall ["diff", "-U", "0", "-b", rid, oid],
              Event.printed ("Rule ID: " ++ rid ++ "\n" ++ env.diff currYaml origYaml)],
             Except.ok ())
          | _, _ => ([], Except.error "TypeError: filename is not a string")

/-- The cutoff gate `date and last_change_at < date` of line 73: a supplied
date (a `datetime`, always truthy) together with a strictly earlier change
time selects the `pass` branch; no date means the comparison proceeds. -/
def cutoffGateSkips (date : Option Int) (last_change_at : Int) : Bool :=
  match date with
  | some d => decide (last_change_at < d)
  | none => false

/-- One iteration of the `for rule in rules` loop of `compare_with_original`:
skip silently when `rule_metadata.get('original-rule')` is falsy; otherwise
fetch the original, parse its `last_change_at`, skip (`pass`) when a cutoff
date was supplied and the change time is strictly earlier, and otherwise
compare patterns. -/
def compareOne (env : Env) (date : Option Int) (rule : Json) :
    List Event × Except String Unit :=
  match rule.getItem "metadata" with
  | Except.error e => ([], Except.error e)
  | Except.ok rule_metadata =>
    match rule_metadata.pyGet "original-rule" with
    | Except.error e => ([], Except.error e)
    | Except.ok origRef =>
      if origRef.truthy then
        match env.fetch origRef with
        | Except.error e => ([Event.fetchOf origRef], Except.error e)
        | Except.ok original_rule =>
          match original_rule.getItem "last_change_at" with
          | Except.error e => ([Event.fetchOf origRef], Except.error e)
          | Except.ok tsJson =>
            match tsJson with
            | Json.str s =>
              match env.parseTs s with
              | Except.error e => ([Event.fetchOf origRef], Except.error e)
              | Except.ok last_change_at =>
                if cutoffGateSkips date last_change_at then
                  ([Event.fetchOf origRef], Except.ok ())
                else
                  match comparePatterns env rule original_rule origRef with
                  | (tr, res) => (Event.fetchOf origRef :: tr, res)
            | _ => ([Event.fetchOf origRef],
                    Except.error "TypeError: strptime argument is not a string")
      else ([], Except.ok ())

/-- `compare_with_original(rules, date)`: the sequential batch loop.  An
exception in one iteration propagates, keeping the trace accumulated so
far and processing no later rule. -/
def compare_with_original (env : Env) (rules : List Json) (date : Option Int) :
    List Event × Except String Unit :=
  match rules with
  | [] => ([], Except.ok ())
  | rule :: rest =>
    match compareOne env date rule with
    | (tr, Except.error e) => (tr, Except.error e)
    | (tr, Except.ok ()) =>
      match compare_with_original env rest date with
      | (tr2, res) => (tr ++ tr2, res)

/-! ### Sample inputs (used by the witnesses) -/

/-- The custom rule of the spec scenario: id `my-rule`, custom origin,
declared original `python.lang.security.foo`, local pattern `foo(...)`. -/
def sampleRule : Json := Json.obj
  [("id", Json.str "my-rule"),
   ("metadata", Json.obj
      [("original-rule", Json.str "python.lang.security.foo"),
       ("semgrep.dev", Json.obj [("rule", Json.obj [("origin", Json.str "custom")])])]),
   ("pattern", Json.str "foo(...)")]

/-- A registry-origin rule, excluded by the custom filter. -/
def sampleRegistryRule : Json := Json.obj
  [("id", Json.str "reg-rule"),
   ("metadata", Json.obj
      [("semgrep.dev", Json.obj [("rule", Json.obj [("origin", Json.str "pro_rules")])])]),
   ("pattern", Json.str "bar(...)")]

/-- A rule whose metadata lacks the `semgrep.dev` key entirely. -/
def sampleBareRule : Json := Json.obj
  [("id", Json.str "bare-rule"),
   ("metadata", Json.obj [("shortlink", Json.str "https://sg.run/x")])]

/-- A fully custom rule: custom origin but no `original-rule` reference. -/
def sampleNoRefRule : Json := Json.obj
  [("id", Json.str "fully-custom"),
   ("metadata", Json.obj
      [("semgrep.dev", Json.obj [("rule", Json.obj [("origin", Json.str "custom")])])]),
   ("pattern", Json.str "baz(...)")]

/-- A custom rule whose `original-rule` key is bound to the empty string. -/
def sampleFalsyRefRule : Json := Json.obj
  [("id", Json.str "falsy-ref"),
   ("metadata", Json.obj
      [("original-rule", Json.str ""),
       ("semgrep.dev", Json.obj [("rule", Json.obj [("origin", Json.str "custom")])])]),
   ("pattern", Json.str "qux(...)")]

/-- A custom rule whose top-level patterns coincide with the sample
original's projection. -/
def sampleMatchedRule : Json := Json.obj
  [("id", Json.str "same-rule"),
   ("metadata", Json.obj
      [("original-rule", Json.str "python.lang.security.foo"),
       ("semgrep.dev", Json.obj [("rule", Json.obj [("origin", Json.str "custom")])])]),
   ("patterns", Json.arr [Json.str "foo($X)"])]

/-- The fetched registry original of the spec scenario: registry shape with
pattern field `patterns: ["foo($X)"]`. -/
def sampleOriginal : Json := Json.obj
  [("last_change_at", Json.str "Mon, 02 Jan 2006 15:04:05 GMT"),
   ("definition", Json.obj [("rules", Json.arr
      [Json.obj [("id", Json.str "foo"),
                 ("patterns", Json.arr [Json.str "foo($X)"])]])])]

/-- A collaborator environment: every fetch returns `sampleOriginal` and the
timestamp parses to 100 on the abstract timeline. -/
def sampleEnv : Env where
  fetch := fun _ => Except.ok sampleOriginal
  parseTs := fun _ => Except.ok 100
  yamlDump := fun ps => toString ps.length
  diff := fun a b => a ++ "|" ++ b

/-- An environment whose registry fetch fails (HTTP error). -/
def failFetchEnv : Env where
  fetch := fun _ => Except.error "HTTPError: 404"
  parseTs := fun _ => Except.ok 100
  yamlDump := fun ps => toString ps.length
  diff := fun a b => a ++ "|" ++ b

/-! ### Helper lemmas -/

lemma getItem_obj_of_pyFind {fields : List (String × Json)} {k : String}
    {v : Json} (h : pyFind k fields = some v) :
    (Json.obj fields).getItem k = Except.ok v := by
  simp [Json.getItem, h]

lemma pyFind_eq_none_of_all (P : String → Bool) (k : String)
    (fields : List (String × Json))
    (hall : ∀ kv ∈ fields, P kv.1 = true) (hk : P k = false) :
    pyFind k fields = none := by
  induction fields with
  | nil => rfl
  | cons kv rest ih =>
    have hkv : P kv.1 = true := hall kv (by simp)
    have hne : (kv.1 == k) = false := by
      rcases h : kv.1 == k with _ | _
      · rfl
      · exact absurd (eq_of_beq h ▸ hkv) (by simp [hk])
    simp only [pyFind, hne, Bool.false_eq_true, if_false]
    exact ih (fun kv h => hall kv (by simp [h]))

lemma filterCustom_ok_mem (rules res : List Json)
    (h : filterCustom rules = Except.ok res) :
    ∀ r ∈ res, is_custom r = Except.ok true := by
  induction rules generalizing res with
  | nil =>
    simp only [filterCustom] at h
    cases h
    intro r hr
    cases hr
  | cons x rest ih =>
    simp only [filterCustom] at h
    rcases hx : is_custom x with e | b <;> rw [hx] at h
    · cases h
    · rcases hrest : filterCustom rest with e | l <;> rw [hrest] at h
      · cases h
      · cases h
        intro r hr
        rcases b with _ | _
        · simp only [Bool.false_eq_true, if_false] at hr
          exact ih l hrest r hr
        · simp only [if_true] at hr
          rcases List.mem_cons.mp hr with h1 | h1
          · exact h1 ▸ hx
          · exact ih l hrest r h1

lemma filterCustom_eq_filter (rules : List Json)
    (h : ∀ r ∈ rules, ∃ b, is_custom r = Except.ok b) :
    filterCustom rules =
      Except.ok (rules.filter
        (fun r => match is_custom r with | Except.ok true => true | _ => false)) := by
  induction rules with
  | nil => rfl
  | cons x rest ih =>
    obtain ⟨b, hb⟩ := h x (by simp)
    have ihr := ih (fun r hr => h r (by simp [hr]))
    simp only [filterCustom, hb, ihr, List.filter_cons]
    rcases b with _ | _ <;> simp

lemma extract_patterns_custom_shape (fields : List (String × Json))
    (h : ((pyFind "definition" fields).getD Json.null).truthy = false) :
    extract_patterns (Json.obj fields) =
      Except.ok ((fields.filter (fun kv => is_pattern_key kv.1)).map
        (fun kv => Json.obj [kv])) := by
  unfold extract_patterns
  simp only [Json.pyGet, h, Bool.false_eq_true, if_false]

lemma extract_patterns_registry_shape (fields : List (String × Json))
    (defv : Json) (dFields : List (String × Json)) (rest : List Json)
    (h1 : pyFind "definition" fields = some defv) (h2 : defv.truthy = true)
    (h3 : defv.getItem "rules" = Except.ok (Json.arr (Json.obj dFields :: rest))) :
    extract_patterns (Json.obj fields) =
      Except.ok ((dFields.filter (fun kv => is_pattern_key kv.1)).map
        (fun kv => Json.obj [kv])) := by
  unfold extract_patterns
  simp only [Json.pyGet, h1, Option.getD_some, h2, if_true, h3]

lemma compare_with_original_cons_err (env : Env) (date : Option Int)
    (x : Json) (rest : List Json) (tr : List Event) (e : String)
    (h : compareOne env date x = (tr, Except.error e)) :
    compare_with_original env (x :: rest) date = (tr, Except.error e) := by
  simp [compare_with_original, h]

lemma compare_with_original_cons_ok (env : Env) (date : Option Int)
    (x : Json) (rest : List Json) (tr : List Event)
    (h : compareOne env date x = (tr, Except.ok ())) :
    compare_with_original env (x :: rest) date =
      (tr ++ (compare_with_original env rest date).1,
       (compare_with_original env rest date).2) := by
  simp [compare_with_original, h]

lemma compare_with_original_append_ok (env : Env) (date : Option Int)
    (xs ys : List Json)
    (h : (compare_with_original env xs date).2 = Except.ok ()) :
    compare_with_original env (xs ++ ys) date =
      ((compare_with_original env xs date).1 ++
        (compare_with_original env ys date).1,
       (compare_with_original env ys date).2) := by
  induction xs with
  | nil => simp [compare_with_original]
  | cons x rest ih =>
    rcases hx : compareOne env date x with ⟨tr, res⟩
    rcases res with e | u
    · rw [compare_with_original_cons_err env date x rest tr e hx] at h
      cases h
    · cases u
      rw [compare_with_original_cons_ok env date x rest tr hx] at h ⊢
      rw [List.cons_append, compare_with_original_cons_ok env date x (rest ++ ys) tr hx,
        ih h]
      simp

lemma compare_with_original_append_err (env : Env) (date : Option Int)
    (xs ys : List Json) (e : String)
    (h : (compare_with_original env xs date).2 = Except.error e) :
    compare_with_original env (xs ++ ys) date =
      compare_with_original env xs date := by
  induction xs with
  | nil => simp [compare_with_original] at h
  | cons x rest ih =>
    rcases hx : compareOne env date x with ⟨tr, res⟩
    rcases res with e' | u
    · rw [List.cons_append, compare_with_original_cons_err env date x (rest ++ ys) tr e' hx,
        compare_with_original_cons_err env date x rest tr e' hx]
    · cases u
      rw [compare_with_original_cons_ok env date x rest tr hx] at h ⊢
      rw [List.cons_append, compare_with_original_cons_ok env date x (rest ++ ys) tr hx,
        ih h]

/-! ### The claims -/

/-- C3: for every rule set, `extract_custom_rules` returns exactly the rules
satisfying the filter condition `is_custom`, in original order and no
others; and `is_custom` holds iff the origin tag carried by the rule's
metadata (at `metadata["semgrep.dev"]["rule"]["origin"]`) equals
`"custom"`. -/
theorem filter_returns_exactly_custom_rules (rules : List Json)
    (h : ∀ r ∈ rules, ∃ b, is_custom r = Except.ok b) :
    extract_custom_rules (Json.obj [("rules", Json.arr rules)]) =
      Except.ok (rules.filter
        (fun r => match is_custom r with | Except.ok true => true | _ => false)) ∧
    ∀ rule mdFields sd rr o,
      rule.getItem "metadata" = Except.ok (Json.obj mdFields) →
      pyFind "semgrep.dev" mdFields = some sd →
      sd.getItem "rule" = Except.ok rr →
      rr.getItem "origin" = Except.ok o →
      (is_custom rule = Except.ok true ↔ pyEq o (Json.str "custom") = true) := by
  constructor
  · show filterCustom rules = _
    exact filterCustom_eq_filter rules h
  · intro rule mdFields sd rr o h1 h2 h3 h4
    unfold is_custom
    rw [h1]
    simp only [h2, Option.isSome_some, if_true, getItem_obj_of_pyFind h2, h3, h4]
    simp

/-- Witness for C3 on a three-rule set: only the custom-origin rule
survives the filter, and its origin tag decides `is_custom`. -/
theorem filter_returns_exactly_custom_rules_witness :
    extract_custom_rules (Json.obj [("rules",
        Json.arr [sampleRule, sampleRegistryRule, sampleBareRule])]) =
      Except.ok [sampleRule] ∧
    (is_custom sampleRule = Except.ok true ↔
      pyEq (Json.str "custom") (Json.str "custom") = true) := by
  have h := filter_returns_exactly_custom_rules
      [sampleRule, sampleRegistryRule, sampleBareRule]
      (by
        intro r hr
        simp only [List.mem_cons, List.not_mem_nil, or_false] at hr
        rcases hr with rfl | rfl | rfl
        · exact ⟨true, rfl⟩
        · exact ⟨false, rfl⟩
        · exact ⟨false, rfl⟩)
  refine ⟨h.1.trans (by rfl), ?_⟩
  exact h.2 sampleRule
    [("original-rule", Json.str "python.lang.security.foo"),
     ("semgrep.dev", Json.obj [("rule", Json.obj [("origin", Json.str "custom")])])]
    (Json.obj [("rule", Json.obj [("origin", Json.str "custom")])])
    (Json.obj [("origin", Json.str "custom")])
    (Json.str "custom") rfl rfl rfl rfl

/-- C9: a rule whose metadata dict lacks the `semgrep.dev` key (under which
the origin tag lives) is evaluated to `false` by the filter condition
without raising, and never appears in the filter's output. -/
theorem missing_origin_key_excluded (rule : Json)
    (mdFields : List (String × Json))
    (h1 : rule.getItem "metadata" = Except.ok (Json.obj mdFields))
    (h2 : pyFind "semgrep.dev" mdFields = none) :
    is_custom rule = Except.ok false ∧
    ∀ rules res, rule ∈ rules →
      extract_custom_rules (Json.obj [("rules", Json.arr rules)]) =
        Except.ok res →
      rule ∉ res := by
  have hic : is_custom rule = Except.ok false := by
    simp [is_custom, h1, h2]
  refine ⟨hic, ?_⟩
  intro rules res _hmem hres hcontra
  have hall : ∀ r ∈ res, is_custom r = Except.ok true :=
    filterCustom_ok_mem rules res hres
  have := hall rule hcontra
  rw [hic] at this
  simp at this

/-- Witness for C9: the bare rule evaluates to `false` and is excluded from
a run whose output keeps only the custom rule. -/
theorem missing_origin_key_excluded_witness :
    is_custom sampleBareRule = Except.ok false ∧
    sampleBareRule ∉ [sampleRule] := by
  have h := missing_origin_key_excluded sampleBareRule
      [("shortlink", Json.str "https://sg.run/x")] rfl rfl
  exact ⟨h.1, h.2 [sampleRule, sampleBareRule] [sampleRule] (by simp) rfl⟩

/-- C4: `extract_patterns` projects a rule record of either shape onto the
sequence of one-entry mappings of its fields selected by `is_pattern_key`,
in encounter order: for the custom shape (no truthy `definition`) the
top-level fields are projected, for the registry shape the fields of
`definition['rules'][0]` are, and the selecting predicate `is_pattern_key`
is the same in both conclusions. -/
theorem extract_patterns_projects_both_shapes (fields : List (String × Json)) :
    (((pyFind "definition" fields).getD Json.null).truthy = false →
       extract_patterns (Json.obj fields) =
         Except.ok ((fields.filter (fun kv => is_pattern_key kv.1)).map
           (fun kv => Json.obj [kv]))) ∧
    (∀ defv dFields rest,
       pyFind "definition" fields = some defv → defv.truthy = true →
       defv.getItem "rules" = Except.ok (Json.arr (Json.obj dFields :: rest)) →
       extract_patterns (Json.obj fields) =
         Except.ok ((dFields.filter (fun kv => is_pattern_key kv.1)).map
           (fun kv => Json.obj [kv]))) := by
  exact ⟨extract_patterns_custom_shape fields,
    fun defv dFields rest h1 h2 h3 =>
      extract_patterns_registry_shape fields defv dFields rest h1 h2 h3⟩

/-- Witness for C4 on the spec scenario rule and its registry original:
the local projection keeps the `pattern` field, the registry projection
keeps the `patterns` field of the nested definition. -/
theorem extract_patterns_projects_both_shapes_witness :
    extract_patterns sampleRule =
      Except.ok [Json.obj [("pattern", Json.str "foo(...)")]] ∧
    extract_patterns sampleOriginal =
      Except.ok [Json.obj [("patterns", Json.arr [Json.str "foo($X)"])]] := by
  constructor
  · exact ((extract_patterns_projects_both_shapes
      [("id", Json.str "my-rule"),
       ("metadata", Json.obj
          [("original-rule", Json.str "python.lang.security.foo"),
           ("semgrep.dev", Json.obj [("rule", Json.obj [("origin", Json.str "custom")])])]),
       ("pattern", Json.str "foo(...)")]).1 rfl).trans (by rfl)
  · exact ((extract_patterns_projects_both_shapes
      [("last_change_at", Json.str "Mon, 02 Jan 2006 15:04:05 GMT"),
       ("definition", Json.obj [("rules", Json.arr
          [Json.obj [("id", Json.str "foo"),
                     ("patterns", Json.arr [Json.str "foo($X)"])]])])]).2
      (Json.obj [("rules", Json.arr
          [Json.obj [("id", Json.str "foo"),
                     ("patterns", Json.arr [Json.str "foo($X)"])]])])
      [("id", Json.str "foo"), ("patterns", Json.arr [Json.str "foo($X)"])]
      [] rfl rfl rfl).trans (by rfl)

/-- Counterexample to C5 as stated: on a rule whose truthy `definition`
wrapper holds an empty nested rule list, `extract_patterns` raises an
IndexError instead of returning an empty projection. -/
theorem extract_patterns_empty_rules_raises :
    extract_patterns (Json.obj [("definition", Json.obj [("rules", Json.arr [])])]) =
      Except.error "IndexError: list index out of range" ∧
    extract_patterns (Json.obj [("definition", Json.obj [("rules", Json.arr [])])]) ≠
      Except.ok [] :=
  ⟨rfl, fun h => Except.noConfusion h⟩

/-- C5 amended: `extract_patterns` degrades to an empty projection (not an
error) whenever the rule record carries no truthy `definition` wrapper and
no pattern-prefixed field; but with a truthy wrapper whose nested rule list
is absent or empty it raises (KeyError resp. IndexError). -/
theorem extract_patterns_degrades_only_without_wrapper
    (fields : List (String × Json))
    (h1 : ((pyFind "definition" fields).getD Json.null).truthy = false)
    (h2 : ∀ kv ∈ fields, is_pattern_key kv.1 = false) :
    extract_patterns (Json.obj fields) = Except.ok [] ∧
    extract_patterns
        (Json.obj [("definition", Json.obj [("rules", Json.arr [])])]) =
      Except.error "IndexError: list index out of range" ∧
    extract_patterns
        (Json.obj [("definition", Json.obj [("x", Json.num 1)])]) =
      Except.error "KeyError: rules" := by
  refine ⟨?_, rfl, rfl⟩
  have hfil : fields.filter (fun kv => is_pattern_key kv.1) = [] :=
    List.filter_eq_nil_iff.mpr (fun kv hkv => by simp [h2 kv hkv])
  have := extract_patterns_custom_shape fields h1
  rw [this, hfil]
  rfl

/-- Witness for C5 amended on a rule with only non-pattern fields. -/
theorem extract_patterns_degrades_only_without_wrapper_witness :
    extract_patterns (Json.obj [("id", Json.str "x"),
        ("metadata", Json.obj [])]) = Except.ok [] ∧
    extract_patterns
        (Json.obj [("definition", Json.obj [("rules", Json.arr [])])]) =
      Except.error "IndexError: list index out of range" ∧
    extract_patterns
        (Json.obj [("definition", Json.obj [("x", Json.num 1)])]) =
      Except.error "KeyError: rules" :=
  extract_patterns_degrades_only_without_wrapper
    [("id", Json.str "x"), ("metadata", Json.obj [])] rfl (by decide)

/-- C1: for a comparable rule whose original fetches and parses cleanly,
a supplied cutoff strictly later than the original's change time makes the
comparator skip the rule — the trace holds the fetch only, so no pattern
comparison output and no print occurs, whatever the patterns are — while
with no cutoff the run always proceeds to the pattern-comparison phase. -/
theorem cutoff_gate_skips_stale (env : Env)
    (rule rule_metadata origRef original : Json) (ts : String) (t : Int)
    (h1 : rule.getItem "metadata" = Except.ok rule_metadata)
    (h2 : rule_metadata.pyGet "original-rule" = Except.ok origRef)
    (h3 : origRef.truthy = true)
    (h4 : env.fetch origRef = Except.ok original)
    (h5 : original.getItem "last_change_at" = Except.ok (Json.str ts))
    (h6 : env.parseTs ts = Except.ok t) :
    (∀ d : Int, t < d →
        compareOne env (some d) rule = ([Event.fetchOf origRef], Except.ok ())) ∧
    compareOne env none rule =
      (Event.fetchOf origRef :: (comparePatterns env rule original origRef).1,
       (comparePatterns env rule original origRef).2) := by
  constructor
  · intro d hd
    unfold compareOne
    rw [h1]
    simp only [h2, h3, if_true, h4, h5, h6]
    simp [cutoffGateSkips, hd]
  · unfold compareOne
    rw [h1]
    simp only [h2, h3, if_true, h4, h5, h6]
    rcases hcp : comparePatterns env rule original origRef with ⟨tr, res⟩
    simp [cutoffGateSkips, hcp]

/-- Witness for C1: with change time 100, a cutoff of 200 yields the bare
fetch trace, while no cutoff reaches the comparison phase. -/
theorem cutoff_gate_skips_stale_witness :
    compareOne sampleEnv (some 200) sampleRule =
      ([Event.fetchOf (Json.str "python.lang.security.foo")], Except.ok ()) ∧
    compareOne sampleEnv none sampleRule =
      (Event.fetchOf (Json.str "python.lang.security.foo") ::
         (comparePatterns sampleEnv sampleRule sampleOriginal
            (Json.str "python.lang.security.foo")).1,
       (comparePatterns sampleEnv sampleRule sampleOriginal
            (Json.str "python.lang.security.foo")).2) := by
  have h := cutoff_gate_skips_stale sampleEnv sampleRule
      (Json.obj
        [("original-rule", Json.str "python.lang.security.foo"),
         ("semgrep.dev", Json.obj [("rule", Json.obj [("origin", Json.str "custom")])])])
      (Json.str "python.lang.security.foo") sampleOriginal
      "Mon, 02 Jan 2006 15:04:05 GMT" 100 rfl rfl rfl rfl rfl rfl
  exact ⟨h.1 200 (by norm_num), h.2⟩

/-- C6: a rule whose metadata holds no `original-rule` binding is skipped
silently: its iteration produces no event (no fetch, no write, no print)
and succeeds, and the whole batch behaves as if the rule were absent. -/
theorem no_reference_skips_silently (env : Env) (date : Option Int)
    (rule : Json) (mdFields : List (String × Json))
    (h1 : rule.getItem "metadata" = Except.ok (Json.obj mdFields))
    (h2 : pyFind "original-rule" mdFields = none) :
    compareOne env date rule = ([], Except.ok ()) ∧
    ∀ pre post,
      compare_with_original env (pre ++ rule :: post) date =
        compare_with_original env (pre ++ post) date := by
  have hskip : compareOne env date rule = ([], Except.ok ()) := by
    unfold compareOne
    rw [h1]
    simp only [Json.pyGet, h2, Option.getD_none]
    rfl
  refine ⟨hskip, ?_⟩
  intro pre post
  rcases hpre : (compare_with_original env pre date).2 with e | u
  · rw [compare_with_original_append_err env date pre (rule :: post) e hpre,
      compare_with_original_append_err env date pre post e hpre]
  · cases u
    rw [compare_with_original_append_ok env date pre (rule :: post) hpre,
      compare_with_original_append_ok env date pre post hpre,
      compare_with_original_cons_ok env date rule post [] hskip]
    simp

/-- Witness for C6: the fully custom rule leaves no trace and a batch
holding only it equals the empty batch. -/
theorem no_reference_skips_silently_witness :
    compareOne sampleEnv none sampleNoRefRule = ([], Except.ok ()) ∧
    compare_with_original sampleEnv [sampleNoRefRule] none =
      compare_with_original sampleEnv [] none := by
  have h := no_reference_skips_silently sampleEnv none sampleNoRefRule
      [("semgrep.dev", Json.obj [("rule", Json.obj [("origin", Json.str "custom")])])]
      rfl rfl
  exact ⟨h.1, h.2 [] []⟩

/-- C10: a rule whose metadata binds `original-rule` to a falsy value (the
truthiness test of `rule_metadata.get('original-rule')` fails) is treated
exactly like a rule with no reference: no event, success, and batch
behavior as if absent. -/
theorem falsy_reference_skips_silently (env : Env) (date : Option Int)
    (rule : Json) (mdFields : List (String × Json)) (v : Json)
    (h1 : rule.getItem "metadata" = Except.ok (Json.obj mdFields))
    (h2 : pyFind "original-rule" mdFields = some v)
    (h3 : v.truthy = false) :
    compareOne env date rule = ([], Except.ok ()) ∧
    ∀ pre post,
      compare_with_original env (pre ++ rule :: post) date =
        compare_with_original env (pre ++ post) date := by
  have hskip : compareOne env date rule = ([], Except.ok ()) := by
    unfold compareOne
    rw [h1]
    simp only [Json.pyGet, h2, Option.getD_some, h3, Bool.false_eq_true, if_false]
  refine ⟨hskip, ?_⟩
  intro pre post
  rcases hpre : (compare_with_original env pre date).2 with e | u
  · rw [compare_with_original_append_err env date pre (rule :: post) e hpre,
      compare_with_original_append_err env date pre post e hpre]
  · cases u
    rw [compare_with_original_append_ok env date pre (rule :: post) hpre,
      compare_with_original_append_ok env date pre post hpre,
      compare_with_original_cons_ok env date rule post [] hskip]
    simp

/-- Witness for C10: an empty-string reference leaves no trace; the
original is never fetched even though the environment could serve it. -/
theorem falsy_reference_skips_silently_witness :
    compareOne sampleEnv none sampleFalsyRefRule = ([], Except.ok ()) ∧
    compare_with_original sampleEnv [sampleFalsyRefRule] none =
      compare_with_original sampleEnv [] none := by
  have h := falsy_reference_skips_silently sampleEnv none sampleFalsyRefRule
      [("original-rule", Json.str ""),
       ("semgrep.dev", Json.obj [("rule", Json.obj [("origin", Json.str "custom")])])]
      (Json.str "") rfl rfl rfl
  exact ⟨h.1, h.2 [] []⟩

/-- C7: when the registry fetch for a rule fails, or the fetched original's
`last_change_at` does not parse, the batch loop stops with that error: the
resulting trace is the (ok) prefix trace followed only by the failed rule's
fetch event — later rules contribute nothing, and the prefix's printed
reports are left in place. -/
theorem fetch_or_timestamp_failure_aborts (env : Env) (date : Option Int)
    (pre post : List Json) (bad rule_metadata origRef : Json) (e : String)
    (hpre : (compare_with_original env pre date).2 = Except.ok ())
    (h1 : bad.getItem "metadata" = Except.ok rule_metadata)
    (h2 : rule_metadata.pyGet "original-rule" = Except.ok origRef)
    (h3 : origRef.truthy = true)
    (h4 : env.fetch origRef = Except.error e ∨
          ∃ original ts, env.fetch origRef = Except.ok original ∧
            original.getItem "last_change_at" = Except.ok (Json.str ts) ∧
            env.parseTs ts = Except.error e) :
    compare_with_original env (pre ++ bad :: post) date =
      ((compare_with_original env pre date).1 ++ [Event.fetchOf origRef],
       Except.error e) := by
  have hbad : compareOne env date bad =
      ([Event.fetchOf origRef], Except.error e) := by
    unfold compareOne
    rw [h1]
    simp only [h2, h3, if_true]
    rcases h4 with h4 | ⟨original, ts, hf, hl, hp⟩
    · simp only [h4]
    · simp only [hf, hl, hp]
  rw [compare_with_original_append_ok env date pre (bad :: post) hpre,
    compare_with_original_cons_err env date bad post [Event.fetchOf origRef] e hbad]

/-- Witness for C7: a failing fetch aborts a one-rule batch with the fetch
event as its whole trace. -/
theorem fetch_or_timestamp_failure_aborts_witness :
    compare_with_original failFetchEnv [sampleRule] none =
      ([Event.fetchOf (Json.str "python.lang.security.foo")],
       Except.error "HTTPError: 404") := by
  have h := fetch_or_timestamp_failure_aborts failFetchEnv none [] []
      sampleRule
      (Json.obj
        [("original-rule", Json.str "python.lang.security.foo"),
         ("semgrep.dev", Json.obj [("rule", Json.obj [("origin", Json.str "custom")])])])
      (Json.str "python.lang.security.foo") "HTTPError: 404"
      rfl rfl rfl rfl (Or.inl rfl)
  exact h.trans (by rfl)

/-- C2: for a comparable rule that passes the cutoff gate, output happens
iff the two pattern projections are unequal under the code's structural
equality: on inequality the original projection is serialized to the file
named by the original-rule id and the current projection to the file named
by `rule['id']`, `diff -U 0 -b` (unified, zero context, whitespace-blind)
is invoked on the two, and the printed report starts with the
`Rule ID: <current id>` header line followed by the diff text; on equality
the trace holds the fetch alone, so nothing is printed. -/
theorem diff_emitted_iff_projections_differ (env : Env) (date : Option Int)
    (rule rule_metadata original : Json) (ts rid oid : String) (t : Int)
    (op cp : List Json)
    (h1 : rule.getItem "metadata" = Except.ok rule_metadata)
    (h2 : rule_metadata.pyGet "original-rule" = Except.ok (Json.str oid))
    (h3 : (Json.str oid).truthy = true)
    (h4 : env.fetch (Json.str oid) = Except.ok original)
    (h5 : original.getItem "last_change_at" = Except.ok (Json.str ts))
    (h6 : env.parseTs ts = Except.ok t)
    (h7 : ∀ d, date = some d → ¬ t < d)
    (h8 : extract_patterns original = Except.ok op)
    (h9 : extract_patterns rule = Except.ok cp)
    (h10 : rule.getItem "id" = Except.ok (Json.str rid)) :
    (pyEqArr op cp = true →
        compareOne env date rule =
          ([Event.fetchOf (Json.str oid)], Except.ok ())) ∧
    (pyEqArr op cp = false →
        compareOne env date rule =
          ([Event.fetchOf (Json.str oid),
            Event.fileWrite oid (env.yamlDump op),
            Event.fileWrite rid (env.yamlDump cp),
            Event.diffCall ["diff", "-U", "0", "-b", rid, oid],
            Event.printed ("Rule ID: " ++ rid ++ "\n" ++
              env.diff (env.yamlDump cp) (env.yamlDump op))],
           Except.ok ())) := by
  have hgate : cutoffGateSkips date t = false := by
    rcases date with _ | d
    · rfl
    · exact decide_eq_false (h7 d rfl)
  constructor
  · intro heq
    have hcp : comparePatterns env rule original (Json.str oid) =
        ([], Except.ok ()) := by
      unfold comparePatterns
      simp only [h8, h9, heq, if_true]
    unfold compareOne
    rw [h1]
    simp only [h2, h3, if_true, h4, h5, h6, hgate, Bool.false_eq_true,
      if_false, hcp]
  · intro hne
    have hcp : comparePatterns env rule original (Json.str oid) =
        ([Event.fileWrite oid (env.yamlDump op),
          Event.fileWrite rid (env.yamlDump cp),
          Event.diffCall ["diff", "-U", "0", "-b", rid, oid],
          Event.printed ("Rule ID: " ++ rid ++ "\n" ++
            env.diff (env.yamlDump cp) (env.yamlDump op))],
         Except.ok ()) := by
      unfold comparePatterns
      simp only [h8, h9, hne, Bool.false_eq_true, if_false, h10]
    unfold compareOne
    rw [h1]
    simp only [h2, h3, if_true, h4, h5, h6, hgate, Bool.false_eq_true,
      if_false, hcp]

/-- Witness for C2, both directions: the spec scenario rule (`foo(...)` vs
`foo($X)`) produces the full report trace headed by `Rule ID: my-rule`,
while a rule matching its original produces the fetch alone. -/
theorem diff_emitted_iff_projections_differ_witness :
    compareOne sampleEnv none sampleRule =
      ([Event.fetchOf (Json.str "python.lang.security.foo"),
        Event.fileWrite "python.lang.security.foo" "1",
        Event.fileWrite "my-rule" "1",
        Event.diffCall ["diff", "-U", "0", "-b", "my-rule", "python.lang.security.foo"],
        Event.printed "Rule ID: my-rule\n1|1"],
       Except.ok ()) ∧
    compareOne sampleEnv none sampleMatchedRule =
      ([Event.fetchOf (Json.str "python.lang.security.foo")], Except.ok ()) := by
  constructor
  · exact ((diff_emitted_iff_projections_differ sampleEnv none sampleRule
      (Json.obj
        [("original-rule", Json.str "python.lang.security.foo"),
         ("semgrep.dev", Json.obj [("rule", Json.obj [("origin", Json.str "custom")])])])
      sampleOriginal "Mon, 02 Jan 2006 15:04:05 GMT"
      "my-rule" "python.lang.security.foo" 100
      [Json.obj [("patterns", Json.arr [Json.str "foo($X)"])]]
      [Json.obj [("pattern", Json.str "foo(...)")]]
      rfl rfl rfl rfl rfl rfl (fun d hd => nomatch hd) rfl rfl rfl).2 rfl).trans
      (by rfl)
  · exact (diff_emitted_iff_projections_differ sampleEnv none sampleMatchedRule
      (Json.obj
        [("original-rule", Json.str "python.lang.security.foo"),
         ("semgrep.dev", Json.obj [("rule", Json.obj [("origin", Json.str "custom")])])])
      sampleOriginal "Mon, 02 Jan 2006 15:04:05 GMT"
      "same-rule" "python.lang.security.foo" 100
      [Json.obj [("patterns", Json.arr [Json.str "foo($X)"])]]
      [Json.obj [("patterns", Json.arr [Json.str "foo($X)"])]]
      rfl rfl rfl rfl rfl rfl (fun d hd => nomatch hd) rfl rfl rfl).1 rfl

/-- C8: re-extracting from a rule rebuilt from a pattern projection yields
the projection unchanged: for fields `ps` that all satisfy `is_pattern_key`
and form a dict (no duplicate keys), extracting from the rule carrying
exactly those fields returns each of them wrapped as a one-entry mapping,
i.e. the serialized projection itself. -/
theorem extract_patterns_idempotent (ps : List (String × Json))
    (h1 : ∀ kv ∈ ps, is_pattern_key kv.1 = true)
    (_h2 : (ps.map Prod.fst).Nodup) :
    extract_patterns (Json.obj ps) =
      Except.ok (ps.map (fun kv => Json.obj [kv])) := by
  have hdef : pyFind "definition" ps = none :=
    pyFind_eq_none_of_all is_pattern_key "definition" ps h1 (by decide)
  have hfil : ps.filter (fun kv => is_pattern_key kv.1) = ps :=
    List.filter_eq_self.mpr (fun kv hkv => h1 kv hkv)
  have := extract_patterns_custom_shape ps (by rw [hdef]; rfl)
  rw [this, hfil]

/-- Witness for C8 on a two-field projection. -/
theorem extract_patterns_idempotent_witness :
    extract_patterns (Json.obj
        [("pattern", Json.str "foo(...)"),
         ("pattern-either", Json.arr [Json.str "a"])]) =
      Except.ok
        [Json.obj [("pattern", Json.str "foo(...)")],
         Json.obj [("pattern-either", Json.arr [Json.str "a"])]] :=
  extract_patterns_idempotent
    [("pattern", Json.str "foo(...)"),
     ("pattern-either", Json.arr [Json.str "a"])]
    (by decide) (by decide)

